import Mathlib

/-!
Verification of the binance_azure_sdk repository against its specification.

The definitions below are a shallow embedding, translated from the Python
source:
  * services/notification/portfolio_reporter.py  (portfolio valuator / renderer)
  * services/notification/wallet_balance_notifier.py and base_notifier.py
  * services/market_manager.py                   (BinanceManager)
  * services/src/market_manager_helper.py        (BinanceManagerHelper)
  * services/azure_manager.py                    (AzureDatabaseManager)
  * examples/azure_database_sync_with_binance.py (tenacity retry policy)

Numeric values (Python floats) are modelled as exact rationals; the one place
where float semantics matter structurally - division by zero producing
NaN/inf in pandas - is modelled explicitly by the `FVal` type below.
-/

namespace BinanceAzure

/-- Result of an IEEE-style float division as performed by pandas: a finite
value, `nan` (0/0) or `inf` (x/0 with x ≠ 0).  All other arithmetic in the
valuator is total and is modelled exactly on ℚ. -/
inductive FVal where
  | num (q : ℚ)
  | nan
  | inf
  deriving DecidableEq, Repr

/-- Float division as pandas performs it elementwise ( `result["total_spend"]
/ result["total_quantity_bought"]` ): dividing by zero raises no exception
but yields NaN (0/0) or ±inf (x/0). -/
def fdiv (a b : ℚ) : FVal :=
  if b = 0 then (if a = 0 then FVal.nan else FVal.inf) else FVal.num (a / b)

/-- One row of the Trade_History table, as read back in
`PortfolioReporter._calculate_assets_balances` (columns list at
portfolio_reporter.py lines 149-160). -/
structure TradeRow where
  id : Nat
  order_id : Nat
  symbol : String
  price : ℚ
  quantity : ℚ
  quote_quantity : ℚ
  commission : ℚ
  commission_asset : String
  is_buyer : Bool
  timestamp : Int
  deriving DecidableEq, Repr

/-- Per-asset output row of `_calculate_assets_balances`
(`result[["total_spend", "average_price", "current_quantity"]]`). -/
structure AssetBalance where
  total_spend : ℚ
  average_price : FVal
  current_quantity : ℚ
  deriving DecidableEq, Repr

/-- `grouped_buys.total_spend` for one symbol: the sum of `quote_quantity`
over the buy rows of that symbol. -/
def totalSpend (trades : List TradeRow) (s : String) : ℚ :=
  ((trades.filter fun t => t.is_buyer && (t.symbol == s)).map
    (fun t => t.quote_quantity)).sum

/-- `grouped_buys.total_quantity_bought` for one symbol: the sum of
`quantity` over the buy rows of that symbol. -/
def totalBought (trades : List TradeRow) (s : String) : ℚ :=
  ((trades.filter fun t => t.is_buyer && (t.symbol == s)).map
    (fun t => t.quantity)).sum

/-- `grouped_sells.total_quantity_sold` for one symbol, after the left merge
and `fillna(0)`: the sum of `quantity` over the sell rows of that symbol,
zero when the symbol has no sell rows. -/
def totalSold (trades : List TradeRow) (s : String) : ℚ :=
  ((trades.filter fun t => !t.is_buyer && (t.symbol == s)).map
    (fun t => t.quantity)).sum

/-- The group keys of `buys.groupby("symbol")`: the distinct symbols that
occur in buy rows.  (pandas orders group keys lexicographically; every
property proved below is independent of the key order, so groups are kept
here in first-occurrence order.) -/
def buyKeys (trades : List TradeRow) : List String :=
  ((trades.filter fun t => t.is_buyer).map fun t => t.symbol).dedup

/-- Python exceptions that escape the embedded fragments. -/
inductive PyError where
  | valueError (msg : String)
  | indexError (msg : String)
  deriving DecidableEq, Repr

/-- `PortfolioReporter._calculate_assets_balances` (portfolio_reporter.py
lines 136-190), with the trade rows fetched from the Trade_History table
passed as input.  Empty history raises
`ValueError("No trades found in the database.")`.  Buys and sells are
aggregated per symbol; sells are left-joined onto the buy keys with missing
values filled with 0; `average_price = total_spend / total_quantity_bought`
is computed with the unguarded pandas float division `fdiv`. -/
def calculate_assets_balances (trades : List TradeRow) :
    Except PyError (List (String × AssetBalance)) :=
  if trades.isEmpty then
    Except.error (PyError.valueError "No trades found in the database.")
  else
    Except.ok ((buyKeys trades).map fun s =>
      (s, { total_spend := totalSpend trades s
            average_price := fdiv (totalSpend trades s) (totalBought trades s)
            current_quantity := totalBought trades s - totalSold trades s }))

/-- Per-asset record after `_calculate_current_values` has added the
current price, value, change and percentage to the `AssetBalance` data. -/
structure AssetValue where
  total_spend : ℚ
  average_price : FVal
  current_quantity : ℚ
  current_price : ℚ
  current_value : ℚ
  value_change : ℚ
  value_change_percentage : ℚ
  deriving DecidableEq, Repr

/-- `PortfolioReporter._calculate_current_values` (portfolio_reporter.py
lines 192-219).  `price` stands for
`manager_binance.get_current_symbol_price`; the `total_spend > 0` guard on
the percentage is in the source. -/
def calculate_current_values (price : String → ℚ)
    (assets_data : List (String × AssetBalance)) : List (String × AssetValue) :=
  assets_data.map fun p =>
    let current_price := price p.1
    let current_value := p.2.current_quantity * current_price
    let value_change := current_value - p.2.total_spend
    (p.1,
      { total_spend := p.2.total_spend
        average_price := p.2.average_price
        current_quantity := p.2.current_quantity
        current_price := current_price
        current_value := current_value
        value_change := value_change
        value_change_percentage :=
          if p.2.total_spend > (0 : ℚ) then value_change / p.2.total_spend * 100
          else 0 })

/-- Portfolio-level totals returned by `_calculate_total_and_value_change`. -/
structure PortfolioValue where
  total_spend_sum : ℚ
  current_value_sum : ℚ
  total_value_change : ℚ
  value_change_percentage : ℚ
  deriving DecidableEq, Repr

/-- `PortfolioReporter._calculate_total_and_value_change`
(portfolio_reporter.py lines 109-134). -/
def calculate_total_and_value_change
    (assets_value : List (String × AssetValue)) : PortfolioValue :=
  let total_spend_sum := (assets_value.map fun p => p.2.total_spend).sum
  let current_value_sum := (assets_value.map fun p => p.2.current_value).sum
  let total_value_change := current_value_sum - total_spend_sum
  { total_spend_sum := total_spend_sum
    current_value_sum := current_value_sum
    total_value_change := total_value_change
    value_change_percentage :=
      if total_spend_sum > (0 : ℚ) then total_value_change / total_spend_sum * 100
      else 0 }

/-- Round half to even, the rounding CPython applies when formatting a float
with a fixed number of decimals ( `f"{x:.2f}"`, `"%.4f" % x`, `round(x, 8)` ). -/
def rhe (q : ℚ) : ℤ :=
  if q - ⌊q⌋ < 1 / 2 then ⌊q⌋
  else if 1 / 2 < q - ⌊q⌋ then ⌊q⌋ + 1
  else if ⌊q⌋ % 2 = 0 then ⌊q⌋ else ⌊q⌋ + 1

/-- The decimal digits of `fr` left-padded with zeros to `dec` digits: the
fractional part of a fixed-point rendering. -/
def padDigits (dec : Nat) (fr : Nat) : String :=
  let s := Nat.repr fr
  String.mk (List.replicate (dec - s.length) '0') ++ s

/-- Fixed-point rendering of the scaled integer `n` (in units of
`10 ^ dec`): sign, integer part, a point, then exactly `dec` digits. -/
def fmtFixedInt (dec : Nat) (n : ℤ) : String :=
  (if n < 0 then "-" else "") ++ Nat.repr (n.natAbs / 10 ^ dec) ++ "." ++
    padDigits dec (n.natAbs % 10 ^ dec)

/-- CPython fixed-point float formatting `f"{q:.dec f}"`: round the value
half-to-even at `dec` decimals and render it with exactly `dec` digits after
the point. -/
def fmtFixed (dec : Nat) (q : ℚ) : String :=
  fmtFixedInt dec (rhe (q * 10 ^ dec))

/-- `f"{q:.2f}"`, the monetary display format used by every renderer. -/
def fmt2 (q : ℚ) : String := fmtFixed 2 q

/-- `round(x, 8)` as applied to wallet balances in
`BinanceManager.get_wallet_balances`. -/
def round8 (q : ℚ) : ℚ := (rhe (q * 10 ^ 8) : ℚ) / 10 ^ 8

/-- `f"{symbol:<13}"`: left-justify the symbol in a field of width 13. -/
def padSymbol (s : String) : String :=
  s ++ String.mk (List.replicate (13 - s.length) ' ')

/-- `WalletBalanceNotifier._render_message` (wallet_balance_notifier.py
lines 47-60): a fixed template with the required and actual USDC balances
inserted through the 2-decimal format. -/
def render_message (actual required : ℚ) : String :=
  "\n        Dear User,\n\n        We noticed that your USDC wallet balance is currently below the required threshold for automated DCA trading.\n\n        📉 Required Balance: $"
    ++ fmt2 required
    ++ "  \n        💼 Current Balance:  $"
    ++ fmt2 actual
    ++ "\n\n        To ensure uninterrupted trading, please top up your wallet at your earliest convenience.\n\n        Thank you,  \n        The Trading Bot Team\n        "

/-- One line of the asset breakdown in
`PortfolioReporter._render_portfolio_report_message` (portfolio_reporter.py
lines 95-100). -/
def assetLine (p : String × AssetValue) : String :=
  padSymbol p.1 ++ " | $" ++ fmt2 p.2.current_value ++ " | $"
    ++ fmt2 p.2.total_spend ++ " | $" ++ fmt2 p.2.value_change ++ " | "
    ++ fmt2 p.2.value_change_percentage ++ "%\n"

/-- `PortfolioReporter._render_portfolio_report_message`
(portfolio_reporter.py lines 61-107): header with the USDC balance and the
four portfolio totals, one `assetLine` per asset, and a fixed footer.  Every
numeric insertion goes through the 2-decimal format `fmt2`. -/
def render_portfolio_report_message (usdc_balance : ℚ)
    (assets_value : List (String × AssetValue))
    (portfolio_value : PortfolioValue) : String :=
  "\n        Dear User,\n\n        📊 Here is the summary of your portfolio:\n\n        💰 **USDC Wallet Balance**: $"
    ++ fmt2 usdc_balance
    ++ "\n\n        🏦 **Portfolio Overview**:\n        - Total Spend: $"
    ++ fmt2 portfolio_value.total_spend_sum
    ++ "\n        - Current Value: $"
    ++ fmt2 portfolio_value.current_value_sum
    ++ "\n        - Value Change: $"
    ++ fmt2 portfolio_value.total_value_change
    ++ "\n        - Percentage Change: "
    ++ fmt2 portfolio_value.value_change_percentage
    ++ "%\n\n        🧐 **Asset Breakdown**:\n        Asset         | Value     | Spend     | Change     | % Change\n        --------------------------------------------------------------\n        "
    ++ String.join (assets_value.map assetLine)
    ++ "\n        Thank you,  \n        The Trading Bot Team\n        "

/-- One row of the wallet `balances` response
(`wallet_info["balances"]` entries with `free` and `locked` coerced to
float). -/
structure BalanceEntry where
  asset : String
  free : ℚ
  locked : ℚ
  deriving DecidableEq, Repr

/-- `BinanceManager.get_wallet_balances` (market_manager.py lines 105-134),
with the `balances` list of the wallet response as input: keep the rows
whose `free` or `locked` amount is non-zero, then round both amounts to 8
decimals (the early return on an empty filtered frame returns the same
empty frame). -/
def get_wallet_balances (wallet : List BalanceEntry) : List BalanceEntry :=
  let filtered := wallet.filter fun b => !(b.free == 0) || !(b.locked == 0)
  if filtered.isEmpty then filtered
  else filtered.map fun b =>
    { b with free := round8 b.free, locked := round8 b.locked }

/-- `BaseNotifier.calculate_usdc_balance` (base_notifier.py lines 50-63):
the `free + locked` sum of the first USDC row of the filtered balances, or
0 when there is none. -/
def calculate_usdc_balance (wallet : List BalanceEntry) : ℚ :=
  match (get_wallet_balances wallet).find? (fun b => b.asset == "USDC") with
  | none => 0
  | some b => b.free + b.locked

/-- `PortfolioReporter.generate_and_send_report` (portfolio_reporter.py
lines 34-59), up to the point where the rendered message is handed to SMTP:
the USDC balance is computed from the wallet, the asset balances from the
trade history, current values from the price lookup, and the report is
rendered.  The `ValueError` raised on an empty trade history propagates;
neither this method nor any caller in the repository catches it. -/
def generate_and_send_report (wallet : List BalanceEntry)
    (trades : List TradeRow) (price : String → ℚ) : Except PyError String :=
  let usdc_balance := calculate_usdc_balance wallet
  (calculate_assets_balances trades).map fun assets_data =>
    let assets_value := calculate_current_values price assets_data
    let portfolio_value := calculate_total_and_value_change assets_value
    render_portfolio_report_message usdc_balance assets_value portfolio_value

/-- `BinanceManagerHelper.validate_trade_limits` (market_manager_helper.py
lines 103-126), translated branch for branch.  On the below-minimum branch
the source logs a warning and then returns `True` — even though its own
docstring promises "False otherwise", the repository's test asserts
`not validate_trade_limits(5.0)`, and the earlier version of the method in
src/market_manager.py returns `False` there. -/
def validate_trade_limits (min_trade_amount usdc_amount : ℚ) : Bool :=
  if usdc_amount < min_trade_amount then
    true
  else
    true

/-- `BinanceManagerHelper.has_sufficient_funds` (market_manager_helper.py
lines 68-101): look up the first row of the given asset; missing asset or
`free < amount` means insufficient. -/
def has_sufficient_funds (amount : ℚ) (balances : List BalanceEntry)
    (asset : String) : Bool :=
  match balances.find? (fun b => b.asset == asset) with
  | none => false
  | some b => if b.free < amount then false else true

/-- The `order_params` dict built by `BinanceManager.create_order`
(market_manager.py lines 292-307): quantity is formatted with
`"%.4f" % quantity`, a LIMIT price with `f"{price:f}"` (6 decimals). -/
structure OrderParams where
  symbol : String
  side : String
  type : String
  quantity : String
  price : Option String
  timeInForce : Option String
  deriving DecidableEq, Repr

/-- Outcome of `create_order`: one of the two failure dicts
(`{"status": "failed", "reason": ...}`; the extra `asset` / `amount`
entries of those dicts are dropped here) or the parameters passed to
`client.new_order`. -/
inductive OrderResult where
  | failed (reason : String)
  | placed (params : OrderParams)
  deriving DecidableEq, Repr

/-- `BinanceManager.create_order` (market_manager.py lines 234-312), up to
the `client.new_order` call.  `wallet` is the raw balances list that
`self.get_wallet_balances()` filters; `currentPrice` stands for
`self.get_current_symbol_price(symbol)`.  Note the Python truthiness of
`price if price else ...`: a price of `0.0` is falsy, so the live price is
used then. -/
def create_order (min_trade_amount : ℚ) (wallet : List BalanceEntry)
    (currentPrice : ℚ) (symbol side order_type : String) (quantity : ℚ)
    (price : Option ℚ) : Except PyError OrderResult :=
  if ¬(side = "BUY" ∨ side = "SELL") then
    Except.error (PyError.valueError "Side must be 'BUY' or 'SELL'.")
  else
    let usdc_amount := quantity *
      (match price with
       | some p => if p == 0 then currentPrice else p
       | none => currentPrice)
    let assetRequired : String × ℚ :=
      if side = "BUY" then ("USDC", usdc_amount)
      else (symbol.replace "USDC" "", quantity)
    if ¬has_sufficient_funds assetRequired.2 (get_wallet_balances wallet)
        assetRequired.1 then
      Except.ok (OrderResult.failed "insufficient funds")
    else if ¬validate_trade_limits min_trade_amount usdc_amount then
      Except.ok (OrderResult.failed "trade amount too low")
    else
      let base : OrderParams :=
        { symbol := symbol, side := side, type := order_type
          quantity := fmtFixed 4 quantity, price := none, timeInForce := none }
      if order_type = "LIMIT" then
        match price with
        | none => Except.error (PyError.valueError "")
        | some p =>
          Except.ok (OrderResult.placed
            { base with price := some (fmtFixed 6 p), timeInForce := some "GTC" })
      else
        Except.ok (OrderResult.placed base)

/-- The outcome an external call would have on a given attempt: success, a
library error (`binance.error.ClientError` / `pyodbc.Error`) or any other
exception.  A call site that retries consults successive attempt indices; a
call site without retry consults only attempt 0. -/
inductive CallOutcome (α : Type) where
  | success (a : α)
  | clientError (msg : String)
  | unexpectedError (msg : String)
  deriving DecidableEq, Repr

/-- The `handle_binance_manager_errors` decorator (market_manager.py lines
16-31): the wrapped function is invoked exactly once (attempt 0); a
`ClientError` or any other exception is logged and immediately re-raised as
a `RuntimeError` — there is no retry and no backoff. -/
def handle_binance_manager_errors {α : Type} (call : Nat → CallOutcome α) :
    Except String α :=
  match call 0 with
  | CallOutcome.success a => Except.ok a
  | CallOutcome.clientError m => Except.error ("Binance API error: " ++ m)
  | CallOutcome.unexpectedError m => Except.error ("Unexpected error: " ++ m)

/-- `AzureDatabaseManager._execute_query` (azure_manager.py lines 282-312):
the query is executed once; a `pyodbc.Error` is re-raised as
`RuntimeError("Error executing database query.")` with no retry. -/
def execute_query {α : Type} (call : Nat → CallOutcome α) : Except String α :=
  match call 0 with
  | CallOutcome.success a => Except.ok a
  | CallOutcome.clientError _ => Except.error "Error executing database query."
  | CallOutcome.unexpectedError m => Except.error m

/-- The `RETRY_POLICY` of examples/azure_database_sync_with_binance.py
(`tenacity.stop_after_attempt(2)` with exponential backoff): a second
attempt is made when the first fails; the last error is re-raised when both
fail.  This is the only retry in the repository, and it wraps only the
three database insert helpers of that example script. -/
def retry_stop_after_attempt_2 {α : Type} (call : Nat → CallOutcome α) :
    Except String α :=
  match call 0 with
  | CallOutcome.success a => Except.ok a
  | _ =>
    match call 1 with
    | CallOutcome.success a => Except.ok a
    | CallOutcome.clientError m => Except.error m
    | CallOutcome.unexpectedError m => Except.error m

/-- `BinanceManager.get_trade_history_last_24h` (market_manager.py lines
373-401).  `fetch` stands for `self.fetch_symbol_trade_history` with the
24-hour window already applied; it returns `None` when the symbol has no
trades in the window (market_manager.py lines 368-369) and the trade rows
otherwise.  The source builds one `f"{asset}USDC"` symbol per non-USDC
wallet row, fetches each, and then tests `not trade_list[0]`: on an empty
symbol list the indexing raises `IndexError`; when the first result is
`None` the function returns an empty DataFrame without looking at the
remaining results; when the first result is a DataFrame, `bool(DataFrame)`
itself raises `ValueError` ("truth value ... is ambiguous"), so the
`pd.concat` on line 401 is unreachable. -/
def get_trade_history_last_24h (balances : List BalanceEntry)
    (fetch : String → Option (List TradeRow)) :
    Except PyError (List TradeRow) :=
  let symbols := (balances.filter fun b => !(b.asset == "USDC")).map
    fun b => b.asset ++ "USDC"
  let trade_list := symbols.map fetch
  match trade_list with
  | [] => Except.error (PyError.indexError "list index out of range")
  | none :: _ => Except.ok []
  | some _ :: _ =>
    Except.error (PyError.valueError
      "The truth value of a DataFrame is ambiguous.")

/-- A concrete buy trade: 1 unit bought for 100 USDC. -/
def tradeBuyBtc : TradeRow :=
  { id := 1, order_id := 1001, symbol := "BTCUSDC", price := 100,
    quantity := 1, quote_quantity := 100, commission := 0,
    commission_asset := "BNB", is_buyer := true, timestamp := 0 }

/-- A concrete buy trade whose executed quantity is zero, so its symbol has
`total_quantity_bought = 0` while still appearing among the buy group keys. -/
def tradeZeroQuantityBuy : TradeRow :=
  { id := 1, order_id := 1002, symbol := "ADAUSDC", price := 0,
    quantity := 0, quote_quantity := 0, commission := 0,
    commission_asset := "BNB", is_buyer := true, timestamp := 0 }

/-- A concrete sell trade of a symbol that has no buy trade. -/
def tradeSellEth : TradeRow :=
  { id := 2, order_id := 1003, symbol := "ETHUSDC", price := 200,
    quantity := 3, quote_quantity := 600, commission := 0,
    commission_asset := "BNB", is_buyer := false, timestamp := 0 }

end BinanceAzure

namespace BinanceAzure

/-- Rounding an integer-valued rational changes nothing. -/
theorem rhe_intCast (n : ℤ) : rhe (n : ℚ) = n := by
  norm_num [rhe]

/-- Round-half-to-even lands within half a unit of the value. -/
theorem abs_rhe_sub_le (x : ℚ) : |((rhe x : ℤ) : ℚ) - x| ≤ 1 / 2 := by
  have h0 : (⌊x⌋ : ℚ) ≤ x := Int.floor_le x
  have h1 : x < ⌊x⌋ + 1 := Int.lt_floor_add_one x
  unfold rhe
  split_ifs with ha hb hc
  · rw [abs_le]; refine ⟨by linarith, by linarith⟩
  · rw [abs_le]; push_cast; refine ⟨by linarith, by linarith⟩
  · rw [abs_le]; refine ⟨by linarith, by linarith⟩
  · rw [abs_le]; push_cast; refine ⟨by linarith, by linarith⟩

/-- Rounding at the second decimal is correct to within half a cent. -/
theorem abs_rhe_div_sub_le (q : ℚ) :
    |((rhe (q * 10 ^ 2) : ℤ) : ℚ) / 10 ^ 2 - q| ≤ 1 / 200 := by
  have h := abs_rhe_sub_le (q * 10 ^ 2)
  have h2 : ((rhe (q * 10 ^ 2) : ℤ) : ℚ) / 10 ^ 2 - q
      = (((rhe (q * 10 ^ 2) : ℤ) : ℚ) - q * 10 ^ 2) / 10 ^ 2 := by ring
  rw [h2, abs_div]
  rw [show |(10 : ℚ) ^ 2| = 10 ^ 2 by norm_num]
  linarith

/-- The padded fractional part of a 2-decimal rendering has exactly two
characters and no decimal point of its own. -/
theorem padDigits_two :
    ∀ fr : Nat, fr < 100 →
      (padDigits 2 fr).length = 2 ∧ '.' ∉ (padDigits 2 fr).toList := by
  decide

/-- Filtering with `keep` first changes nothing for a predicate `p` that
already implies `keep` on the list. -/
theorem filter_of_filter_keep {α : Type} {l : List α} {keep p : α → Bool}
    (h : ∀ t ∈ l, p t = true → keep t = true) :
    (l.filter keep).filter p = l.filter p := by
  rw [List.filter_filter]
  apply List.filter_congr
  intro t ht
  cases hp : p t
  · simp
  · simp [h t ht hp]

/-- `round(1000.0, 8)` is exact. -/
theorem round8_1000 : round8 (1000 : ℚ) = 1000 := by
  rw [round8, show ((1000 : ℚ) * 10 ^ 8) = ((100000000000 : ℤ) : ℚ) by norm_num,
    rhe_intCast]
  norm_num

/-- `"%.4f" % 1` renders as `1.0000`. -/
theorem fmtFixed_4_1 : fmtFixed 4 1 = "1.0000" := by
  rw [fmtFixed, show ((1 : ℚ) * 10 ^ 4) = ((10000 : ℤ) : ℚ) by norm_num,
    rhe_intCast]
  decide

end BinanceAzure

namespace BinanceAzure

/-- C1: the claim states that an order whose estimated USDC amount is below
the configured minimum is rejected by `create_order` with reason "trade
amount too low".  The code violates this: `validate_trade_limits` returns
`true` on its below-minimum branch, so with `min_trade_amount = 10`, a
wallet holding 1000 USDC and a BUY of quantity 1 at limit price 5
(estimated cost 5 USDC, strictly below the minimum), `create_order`
proceeds to place the order instead of returning the failure dict.  This
theorem evaluates the embedded code at that failing input. -/
theorem claim_C1_below_minimum_order_is_placed :
    create_order 10 [{ asset := "USDC", free := 1000, locked := 0 }] 999
        "BTCUSDC" "BUY" "MARKET" 1 (some 5) =
      Except.ok (OrderResult.placed
        { symbol := "BTCUSDC", side := "BUY", type := "MARKET",
          quantity := "1.0000", price := none, timeInForce := none })
    ∧ validate_trade_limits 10 5 = true ∧ (5 : ℚ) < 10 := by
  refine ⟨?_, by simp [validate_trade_limits], by norm_num⟩
  simp only [create_order, get_wallet_balances, has_sufficient_funds,
    validate_trade_limits, fmtFixed_4_1]
  norm_num [round8_1000, List.find?, List.filter]
  intro h
  exact absurd h (by decide)

/-- C2: for every trade history accepted by the valuator, every reported
asset's `current_quantity` equals the sum of bought quantities minus the sum
of sold quantities for that asset (`totalBought` and `totalSold` are those
sums, a missing sell side contributing zero). -/
theorem claim_C2_current_quantity_is_bought_minus_sold :
    ∀ (trades : List TradeRow) (l : List (String × AssetBalance))
      (s : String) (d : AssetBalance),
      calculate_assets_balances trades = Except.ok l → (s, d) ∈ l →
      d.current_quantity = totalBought trades s - totalSold trades s := by
  intro trades l s d hok hmem
  unfold calculate_assets_balances at hok
  by_cases h : trades.isEmpty
  · simp [h] at hok
  · simp [h] at hok
    subst hok
    rcases List.mem_map.mp hmem with ⟨key, hkey, heq⟩
    cases heq
    rfl

/-- Witness for C2 at a concrete single-buy history. -/
theorem claim_C2_current_quantity_witness :
    ({ total_spend := 100, average_price := FVal.num 100,
       current_quantity := 1 } : AssetBalance).current_quantity
      = totalBought [tradeBuyBtc] "BTCUSDC"
        - totalSold [tradeBuyBtc] "BTCUSDC" :=
  claim_C2_current_quantity_is_bought_minus_sold [tradeBuyBtc]
    [("BTCUSDC", { total_spend := 100, average_price := FVal.num 100,
                   current_quantity := 1 })]
    "BTCUSDC" _
    (by simp [calculate_assets_balances, buyKeys, totalSpend, totalBought,
          totalSold, fdiv, tradeBuyBtc])
    (by simp)

/-- C3: the claim states that an asset with zero total bought quantity gets
`average_price = 0`.  The code computes
`total_spend / total_quantity_bought` unguarded (pandas float division), so
a history holding one buy row with quantity 0 yields `average_price = NaN`
(0/0), not zero.  This theorem evaluates the embedded code at that failing
input. -/
theorem claim_C3_zero_bought_average_price_is_nan :
    calculate_assets_balances [tradeZeroQuantityBuy] =
      Except.ok [("ADAUSDC",
        { total_spend := 0, average_price := FVal.nan,
          current_quantity := 0 })] := by
  simp [calculate_assets_balances, buyKeys, totalSpend, totalBought,
    totalSold, fdiv, tradeZeroQuantityBuy]

/-- C4 counterexample: a Binance API call that fails transiently (attempt 0
raises a ClientError, attempt 1 would succeed) is surfaced by
`handle_binance_manager_errors` as a runtime failure after the single
attempt, while a genuine 2-attempt retry policy would have succeeded on the
same call — refuting the claim that every such call is retried at the call
site. -/
theorem claim_C4_single_attempt_surfaces_transient_failure :
    handle_binance_manager_errors
        (fun n => if n = 0 then CallOutcome.clientError "timeout"
                  else CallOutcome.success (42 : Nat)) =
      Except.error "Binance API error: timeout"
    ∧ retry_stop_after_attempt_2
        (fun n => if n = 0 then CallOutcome.clientError "timeout"
                  else CallOutcome.success (42 : Nat)) =
      Except.ok 42 := by
  constructor <;> rfl

/-- C4 (amended): calls wrapped by `handle_binance_manager_errors` and
queries run by `_execute_query` are attempted exactly once — the result
depends only on attempt 0 — and any first-attempt failure is immediately
surfaced as a runtime failure; the only retry in the repository is the
2-attempt `RETRY_POLICY` of the example sync script, which does recover
from a first-attempt failure. -/
theorem claim_C4_no_retry_at_call_sites :
    ∀ (call call' : Nat → CallOutcome Nat) (callq : Nat → CallOutcome Unit)
      (a : Nat) (m : String),
      (call 0 = call' 0 →
        handle_binance_manager_errors call
          = handle_binance_manager_errors call') ∧
      (call 0 = CallOutcome.success a →
        handle_binance_manager_errors call = Except.ok a) ∧
      (call 0 = CallOutcome.clientError m →
        handle_binance_manager_errors call
          = Except.error ("Binance API error: " ++ m)) ∧
      (call 0 = CallOutcome.unexpectedError m →
        handle_binance_manager_errors call
          = Except.error ("Unexpected error: " ++ m)) ∧
      (callq 0 = CallOutcome.clientError m →
        execute_query callq = Except.error "Error executing database query.") ∧
      (call 0 = CallOutcome.clientError m → call 1 = CallOutcome.success a →
        retry_stop_after_attempt_2 call = Except.ok a) := by
  intro call call' callq a m
  refine ⟨?_, ?_, ?_, ?_, ?_, ?_⟩
  · intro h; simp only [handle_binance_manager_errors, h]
  · intro h; simp only [handle_binance_manager_errors, h]
  · intro h; simp only [handle_binance_manager_errors, h]
  · intro h; simp only [handle_binance_manager_errors, h]
  · intro h; simp only [execute_query, h]
  · intro h1 h2; simp only [retry_stop_after_attempt_2, h1, h2]

/-- Witness for C4 at a concrete transiently-failing call. -/
theorem claim_C4_no_retry_witness :
    retry_stop_after_attempt_2
        (fun n => if n = 0 then CallOutcome.clientError "boom"
                  else CallOutcome.success (7 : Nat)) =
      Except.ok 7 :=
  (claim_C4_no_retry_at_call_sites
    (fun n => if n = 0 then CallOutcome.clientError "boom"
              else CallOutcome.success (7 : Nat))
    (fun n => if n = 0 then CallOutcome.clientError "boom"
              else CallOutcome.success (7 : Nat))
    (fun _ => CallOutcome.success ()) 7 "boom").2.2.2.2.2 rfl rfl

/-- C5 counterexample: on an empty trade history, report generation raises
(returns the ValueError) rather than completing without an exception as the
claim states. -/
theorem claim_C5_empty_history_raises_value_error :
    generate_and_send_report [] [] (fun _ => 0) =
      Except.error (PyError.valueError "No trades found in the database.") := by
  simp [generate_and_send_report, calculate_assets_balances, Except.map]

/-- C5 (amended): for every wallet and price lookup, report generation on an
empty trade history stops with `ValueError("No trades found in the
database.")` — a "no data" signal raised before any value is computed, so no
NaN-laden report is produced or sent — and this exception propagates to the
caller instead of the run completing gracefully. -/
theorem claim_C5_empty_history_signals_no_data_via_exception :
    ∀ (wallet : List BalanceEntry) (price : String → ℚ),
      generate_and_send_report wallet [] price =
        Except.error (PyError.valueError "No trades found in the database.") := by
  intro wallet price
  simp [generate_and_send_report, calculate_assets_balances, Except.map]

/-- C6: for the single trade history of one buy of quantity 1 and quote
quantity 100 and a price lookup returning 150, the valuator reports
`current_value = 150`, `value_change = 50` and
`value_change_percentage = 50`. -/
theorem claim_C6_single_buy_trade_valuation :
    calculate_assets_balances [tradeBuyBtc] =
      Except.ok [("BTCUSDC",
        { total_spend := 100, average_price := FVal.num 100,
          current_quantity := 1 })]
    ∧ calculate_current_values (fun _ => 150)
        [("BTCUSDC", { total_spend := 100, average_price := FVal.num 100,
                       current_quantity := 1 })] =
      [("BTCUSDC",
        { total_spend := 100, average_price := FVal.num 100,
          current_quantity := 1, current_price := 150, current_value := 150,
          value_change := 50, value_change_percentage := 50 })] := by
  constructor
  · simp [calculate_assets_balances, buyKeys, totalSpend, totalBought,
      totalSold, fdiv, tradeBuyBtc]
  · simp [calculate_current_values]
    norm_num

/-- C7: `get_wallet_balances` keeps exactly the wallet rows whose free or
locked amount is non-zero — the result is the filter of the input by that
predicate (with amounts rounded to 8 decimals), and every row with a
non-zero free or locked amount is retained in the returned balances. -/
theorem claim_C7_wallet_balance_filter :
    ∀ wallet : List BalanceEntry,
      get_wallet_balances wallet =
        (wallet.filter fun b => !(b.free == 0 && b.locked == 0)).map
          (fun b => { b with free := round8 b.free,
                             locked := round8 b.locked }) ∧
      ∀ b ∈ wallet, ¬(b.free = 0 ∧ b.locked = 0) →
        ({ b with free := round8 b.free, locked := round8 b.locked }
            : BalanceEntry) ∈ get_wallet_balances wallet := by
  intro wallet
  have hpred : ∀ b ∈ wallet,
      (!(b.free == 0) || !(b.locked == 0))
        = !(b.free == 0 && b.locked == 0) := by
    intro b _
    cases hf : (b.free == 0) <;> cases hl : (b.locked == 0) <;> simp [hf, hl]
  have hfil : wallet.filter (fun b => !(b.free == 0) || !(b.locked == 0))
      = wallet.filter (fun b => !(b.free == 0 && b.locked == 0)) :=
    List.filter_congr hpred
  constructor
  · unfold get_wallet_balances
    by_cases he :
        (wallet.filter fun b => !(b.free == 0) || !(b.locked == 0)).isEmpty
    · rw [if_pos he]
      rw [List.isEmpty_iff] at he
      rw [he]
      rw [hfil] at he
      rw [he]
      rfl
    · rw [if_neg he, hfil]
  · intro b hb hnz
    have hbp : (!(b.free == 0) || !(b.locked == 0)) = true := by
      rcases not_and_or.mp hnz with h | h <;>
        simp [Bool.or_eq_true, beq_eq_false_iff_ne, h]
    have hmem : b ∈ wallet.filter
        (fun b => !(b.free == 0) || !(b.locked == 0)) :=
      List.mem_filter.mpr ⟨hb, hbp⟩
    unfold get_wallet_balances
    rw [if_neg (by
      intro he
      rw [List.isEmpty_iff] at he
      rw [he] at hmem
      exact absurd hmem (List.not_mem_nil b))]
    exact List.mem_map_of_mem _ hmem

/-- Witness for C7 at a concrete one-row wallet. -/
theorem claim_C7_wallet_balance_filter_witness :
    ({ asset := "BTC", free := round8 1, locked := round8 0 }
        : BalanceEntry) ∈
      get_wallet_balances [{ asset := "BTC", free := 1, locked := 0 }] :=
  (claim_C7_wallet_balance_filter
      [{ asset := "BTC", free := 1, locked := 0 }]).2
    { asset := "BTC", free := 1, locked := 0 }
    (by simp) (by norm_num)

/-- C8: the renderers are pure formatting whose every monetary insertion
goes through the 2-decimal format `fmt2`: a formatted value always consists
of a prefix, a point, and exactly two fractional digits; the displayed
value is the input correctly rounded to within half a cent; and both the
low-balance message and an asset breakdown line depend only on the
2-decimal roundings of their monetary inputs, regardless of the 8-decimal
storage precision of those inputs. -/
theorem claim_C8_renderers_round_to_two_decimals :
    ∀ (q a r a' r' : ℚ),
      (∃ s t, fmt2 q = s ++ "." ++ t ∧ t.length = 2 ∧ '.' ∉ t.toList) ∧
      |((rhe (q * 10 ^ 2) : ℤ) : ℚ) / 10 ^ 2 - q| ≤ 1 / 200 ∧
      (rhe (a * 10 ^ 2) = rhe (a' * 10 ^ 2) →
       rhe (r * 10 ^ 2) = rhe (r' * 10 ^ 2) →
       render_message a r = render_message a' r') ∧
      ∀ (sym : String) (d d' : AssetValue),
        rhe (d.current_value * 10 ^ 2) = rhe (d'.current_value * 10 ^ 2) →
        rhe (d.total_spend * 10 ^ 2) = rhe (d'.total_spend * 10 ^ 2) →
        rhe (d.value_change * 10 ^ 2) = rhe (d'.value_change * 10 ^ 2) →
        rhe (d.value_change_percentage * 10 ^ 2)
          = rhe (d'.value_change_percentage * 10 ^ 2) →
        assetLine (sym, d) = assetLine (sym, d') := by
  intro q a r a' r'
  have hlt : (rhe (q * 10 ^ 2)).natAbs % 10 ^ 2 < 100 := by
    have := Nat.mod_lt ((rhe (q * 10 ^ 2)).natAbs)
      (show 0 < 10 ^ 2 by norm_num)
    simpa using this
  refine ⟨⟨(if rhe (q * 10 ^ 2) < 0 then "-" else "")
      ++ Nat.repr ((rhe (q * 10 ^ 2)).natAbs / 10 ^ 2),
      padDigits 2 ((rhe (q * 10 ^ 2)).natAbs % 10 ^ 2),
      rfl, (padDigits_two _ hlt).1, (padDigits_two _ hlt).2⟩,
    abs_rhe_div_sub_le q, ?_, ?_⟩
  · intro h1 h2
    simp only [render_message, fmt2, fmtFixed, h1, h2]
  · intro sym d d' h1 h2 h3 h4
    simp only [assetLine, fmt2, fmtFixed, h1, h2, h3, h4]

/-- Witness for C8: two balances that agree after 2-decimal rounding render
to the same message. -/
theorem claim_C8_renderers_witness :
    render_message (1 / 1000) 5 = render_message (1 / 250) 5 :=
  (claim_C8_renderers_round_to_two_decimals 0 (1 / 1000) 5 (1 / 250) 5).2.2.1
    (by norm_num [rhe]) (by norm_num [rhe])

/-- C9: an asset that appears only in sell trades is absent from the
valuator's per-asset output (aggregation keys come from the buy side), and
removing its sell trades from a history whose valuation succeeds leaves the
output — hence every portfolio total computed from it — unchanged. -/
theorem claim_C9_sell_only_asset_absent :
    ∀ (trades : List TradeRow) (s : String),
      (∀ t ∈ trades, t.is_buyer = true → t.symbol ≠ s) →
      ∀ l : List (String × AssetBalance),
        calculate_assets_balances trades = Except.ok l →
        (∀ d : AssetBalance, (s, d) ∉ l) ∧
        ∀ l' : List (String × AssetBalance),
          calculate_assets_balances
              (trades.filter fun t => !(!t.is_buyer && (t.symbol == s)))
            = Except.ok l' →
          l' = l := by
  intro trades s hnobuy l hok
  have hkeyne : ∀ k ∈ buyKeys trades, k ≠ s := by
    intro k hk
    rcases List.mem_map.mp (List.mem_dedup.mp hk) with ⟨t, htf, hsym⟩
    rcases List.mem_filter.mp htf with ⟨ht, hbuy⟩
    exact hsym ▸ hnobuy t ht hbuy
  have hbuykeys :
      buyKeys (trades.filter fun t => !(!t.is_buyer && (t.symbol == s)))
        = buyKeys trades := by
    unfold buyKeys
    rw [filter_of_filter_keep (fun t _ hb => by simp [hb])]
  have hspend : ∀ k,
      totalSpend (trades.filter fun t => !(!t.is_buyer && (t.symbol == s))) k
        = totalSpend trades k := by
    intro k
    unfold totalSpend
    rw [filter_of_filter_keep (fun t _ hb => by
      simp [(Bool.and_eq_true _ _).mp hb |>.1])]
  have hbought : ∀ k,
      totalBought (trades.filter fun t => !(!t.is_buyer && (t.symbol == s))) k
        = totalBought trades k := by
    intro k
    unfold totalBought
    rw [filter_of_filter_keep (fun t _ hb => by
      simp [(Bool.and_eq_true _ _).mp hb |>.1])]
  have hsold : ∀ k, k ≠ s →
      totalSold (trades.filter fun t => !(!t.is_buyer && (t.symbol == s))) k
        = totalSold trades k := by
    intro k hks
    unfold totalSold
    rw [filter_of_filter_keep (fun t _ hb => by
      obtain ⟨hnb, hsym⟩ := (Bool.and_eq_true _ _).mp hb
      have hts : t.symbol = k := eq_of_beq hsym
      have : (t.symbol == s) = false :=
        beq_eq_false_iff_ne.mpr (hts ▸ hks)
      simp [this])]
  unfold calculate_assets_balances at hok
  by_cases hemp : trades.isEmpty
  · simp [hemp] at hok
  · simp [hemp] at hok
    subst hok
    constructor
    · intro d hmem
      rcases List.mem_map.mp hmem with ⟨key, hkey, heq⟩
      have hkeys : key = s := congrArg Prod.fst heq
      exact hkeyne key hkey hkeys
    · intro l' hok'
      unfold calculate_assets_balances at hok'
      by_cases hemp' :
          (trades.filter fun t => !(!t.is_buyer && (t.symbol == s))).isEmpty
            = true
      · rw [if_pos hemp'] at hok'
        cases hok'
      · rw [if_neg hemp'] at hok'
        injection hok' with h
        subst h
        rw [hbuykeys]
        apply List.map_congr_left
        intro k hk
        rw [hspend k, hbought k, hsold k (hkeyne k hk)]

/-- Witness for C9 at a concrete history with one buy of BTCUSDC and one
sell-only symbol ETHUSDC. -/
theorem claim_C9_sell_only_asset_witness :
    ("ETHUSDC", ({ total_spend := 0, average_price := FVal.nan,
                   current_quantity := 0 } : AssetBalance)) ∉
      [("BTCUSDC", ({ total_spend := 100, average_price := FVal.num 100,
                      current_quantity := 1 } : AssetBalance))] :=
  (claim_C9_sell_only_asset_absent [tradeBuyBtc, tradeSellEth] "ETHUSDC"
    (by decide)
    [("BTCUSDC", { total_spend := 100, average_price := FVal.num 100,
                   current_quantity := 1 })]
    (by simp [calculate_assets_balances, buyKeys, totalSpend, totalBought,
          totalSold, fdiv, tradeBuyBtc, tradeSellEth])).1
    { total_spend := 0, average_price := FVal.nan, current_quantity := 0 }

/-- C10: `get_trade_history_last_24h` decides whether any trades exist from
the first non-USDC wallet asset's fetch result alone: a wallet with no
non-USDC asset makes the indexing of the first element fail with an
IndexError, and whenever the first asset's result is `None` the function
returns an empty result regardless of the remaining assets' results. -/
theorem claim_C10_first_asset_decides :
    ∀ (balances : List BalanceEntry)
      (fetch : String → Option (List TradeRow)),
      ((balances.filter fun b => !(b.asset == "USDC")) = [] →
        get_trade_history_last_24h balances fetch =
          Except.error (PyError.indexError "list index out of range")) ∧
      ∀ (b : BalanceEntry) (rest : List BalanceEntry),
        (balances.filter fun b => !(b.asset == "USDC")) = b :: rest →
        fetch (b.asset ++ "USDC") = none →
        get_trade_history_last_24h balances fetch = Except.ok [] := by
  intro balances fetch
  constructor
  · intro h; simp [get_trade_history_last_24h, h]
  · intro b rest h hfetch
    simp [get_trade_history_last_24h, h, hfetch]

/-- Witness for C10: the first asset (BTC) has no trades, the second (ETH)
does, yet the result is empty. -/
theorem claim_C10_first_asset_witness :
    get_trade_history_last_24h
        [{ asset := "BTC", free := 1, locked := 0 },
         { asset := "ETH", free := 2, locked := 0 }]
        (fun s => if s = "ETHUSDC" then some [tradeBuyBtc] else none) =
      Except.ok [] :=
  (claim_C10_first_asset_decides
    [{ asset := "BTC", free := 1, locked := 0 },
     { asset := "ETH", free := 2, locked := 0 }]
    (fun s => if s = "ETHUSDC" then some [tradeBuyBtc] else none)).2
    { asset := "BTC", free := 1, locked := 0 }
    [{ asset := "ETH", free := 2, locked := 0 }]
    (by rfl) (by rfl)

end BinanceAzure
